import Mathlib

/-!
Shallow embedding of the battle engine of a small turn-based creature battle
simulator (files pokemon.py, player.py, battle.py).  Python integers are
modelled as Int, Python floats appearing in the damage and stat formulas as
exact rationals, and each battle-log line as a constructor of LogEvent.  The
static data tables the engine reads (the type-effectiveness chart and the
move catalog) are external read-only inputs and appear as explicit function
parameters.  Randomness drawn during a move is passed in explicitly through
a RandOracle record.
-/

/-- Floor of a rational, computed directly from its reduced fraction. -/
def ratFloor (q : ℚ) : Int := Int.fdiv q.num q.den

/-- Python int() truncation toward zero, on a rational. -/
def pyInt (q : ℚ) : Int := if q < 0 then -(ratFloor (-q)) else ratFloor q

/-- Status conditions a Pokémon may carry (pokemon.py line 67). -/
inductive StatusCond where
  | paralyzed
  | poisoned
  | burned
  | asleep
  | frozen
deriving DecidableEq

/-- The stat-stage dictionary of a Pokémon (pokemon.py lines 64-66). -/
structure StatStages where
  attack : Int
  defense : Int
  sp_attack : Int
  sp_defense : Int
  speed : Int
  accuracy : Int
  evasion : Int
deriving DecidableEq

/-- Dictionary lookup `self.stat_stages.get(stat)`. -/
def StatStages.get (s : StatStages) (k : String) : Option Int :=
  if k = "attack" then some s.attack
  else if k = "defense" then some s.defense
  else if k = "sp_attack" then some s.sp_attack
  else if k = "sp_defense" then some s.sp_defense
  else if k = "speed" then some s.speed
  else if k = "accuracy" then some s.accuracy
  else if k = "evasion" then some s.evasion
  else none

/-- Dictionary store `self.stat_stages[stat] = v` (for a key already present). -/
def StatStages.set (s : StatStages) (k : String) (v : Int) : StatStages :=
  if k = "attack" then { s with attack := v }
  else if k = "defense" then { s with defense := v }
  else if k = "sp_attack" then { s with sp_attack := v }
  else if k = "sp_defense" then { s with sp_defense := v }
  else if k = "speed" then { s with speed := v }
  else if k = "accuracy" then { s with accuracy := v }
  else if k = "evasion" then { s with evasion := v }
  else s

/-- One creature in battle (pokemon.py, class Pokemon).  The base-derived
stats are taken as given integers, as they are computed once at creation
from external species data and never change afterwards. -/
structure Pokemon where
  nickname : String
  types : List String
  level : Int
  moves : List String
  max_hp : Int
  current_hp : Int
  attack : Int
  defense : Int
  sp_attack : Int
  sp_defense : Int
  speed : Int
  stat_stages : StatStages
  status : Option StatusCond
deriving DecidableEq

/-- pokemon.py lines 95-102. -/
def Pokemon.is_fainted (p : Pokemon) : Bool := p.current_hp ≤ 0

/-- pokemon.py lines 104-149.  The early `return 1.0` for any stat name other
than the five core stats (line 126) fires before the stage multiplier is
applied, so the accuracy/evasion multiplier branch below it is kept here
exactly as in the source but is unreachable. -/
def Pokemon.get_modified_stat (p : Pokemon) (stat_name : String) : ℚ :=
  let base_value? : Option Int :=
    if stat_name = "attack" then some p.attack
    else if stat_name = "defense" then some p.defense
    else if stat_name = "sp_attack" then some p.sp_attack
    else if stat_name = "sp_defense" then some p.sp_defense
    else if stat_name = "speed" then some p.speed
    else none
  match base_value? with
  | none => 1
  | some base_value =>
    let stage := (p.stat_stages.get stat_name).getD 0
    let multiplier : ℚ :=
      if stat_name = "accuracy" ∨ stat_name = "evasion" then
        if stage ≥ 0 then (3 + (stage : ℚ)) / 3 else 3 / (3 - (stage : ℚ))
      else
        if stage ≥ 0 then (2 + (stage : ℚ)) / 2 else 2 / (2 - (stage : ℚ))
    let multiplier :=
      if stat_name = "speed" ∧ p.status = some StatusCond.paralyzed then
        multiplier * (1 / 2)
      else multiplier
    let multiplier :=
      if stat_name = "attack" ∧ p.status = some StatusCond.burned then
        multiplier * (1 / 2)
      else multiplier
    ((pyInt ((base_value : ℚ) * multiplier) : Int) : ℚ)

/-- pokemon.py lines 151-163: clamp the amount to at least 1, subtract it
from current HP floored at 0, and return the clamped amount. -/
def Pokemon.take_damage (p : Pokemon) (damage : Int) : Pokemon × Int :=
  let damage := max 1 damage
  ({ p with current_hp := max 0 (p.current_hp - damage) }, damage)

/-- pokemon.py lines 165-180. -/
def Pokemon.heal (p : Pokemon) (amount : Int) : Pokemon × Int :=
  if p.is_fainted then (p, 0)
  else
    let old_hp := p.current_hp
    let new_hp := min p.max_hp (p.current_hp + amount)
    ({ p with current_hp := new_hp }, new_hp - old_hp)

/-- pokemon.py lines 182-205. -/
def Pokemon.apply_status (p : Pokemon) (st : StatusCond) : Pokemon × Bool :=
  if p.status.isSome then (p, false)
  else if st = StatusCond.paralyzed ∧ "Electric" ∈ p.types then (p, false)
  else if st = StatusCond.poisoned ∧ ("Poison" ∈ p.types ∨ "Steel" ∈ p.types) then
    (p, false)
  else if st = StatusCond.burned ∧ "Fire" ∈ p.types then (p, false)
  else ({ p with status := some st }, true)

/-- pokemon.py lines 211-228: clamp the stored stage to [-6, 6] and return
the actual number of stages changed; a stat name not present in the stage
dictionary changes nothing and returns 0. -/
def Pokemon.modify_stat_stage (p : Pokemon) (stat : String) (stages : Int) :
    Pokemon × Int :=
  match p.stat_stages.get stat with
  | none => (p, 0)
  | some old_stage =>
    let new_stage := max (-6) (min 6 (old_stage + stages))
    ({ p with stat_stages := p.stat_stages.set stat new_stage },
     new_stage - old_stage)

/-- The structured effect descriptor of a move (read-only move data). -/
structure Effect where
  status : Option StatusCond := none
  chance : Option ℚ := none
  stat_boost : List (String × Int) := []
  stat_drop : List (String × Int) := []
  stat_boost_chance : List (String × Int) := []
  stat_drop_chance : List (String × Int) := []
  heal : Option ℚ := none
  drain : Option ℚ := none
  recoil : Option ℚ := none
  priority : Int := 0
deriving DecidableEq

/-- A move from the static move catalog (read-only move data). -/
structure Move where
  move_type : String := "Normal"
  category : String := "Physical"
  power : Int := 0
  accuracy : Int := 100
  effect : Effect := {}
deriving DecidableEq

/-- One battle-log line, abstracted to the event it describes. -/
inductive LogEvent where
  | usedMove (player nickname mv : String)
  | unknownMove (nickname mv : String)
  | paralyzedImmobile (nickname : String)
  | frozenSolid (nickname : String)
  | fastAsleep (nickname : String)
  | missed (nickname : String)
  | superEffective
  | notVeryEffective
  | noEffect (nickname : String)
  | criticalHit
  | tookDamage (nickname : String) (amount : Int)
  | fainted (player nickname : String)
  | statusInflicted (nickname : String) (st : StatusCond)
  | statChanged (nickname stat : String) (rose : Bool)
  | restoredHP (nickname : String) (amount : Int)
  | hurtByRecoil (nickname : String) (amount : Int)
  | faintedFromRecoil (player nickname : String)
  | withdrew (player : String)
  | sentOut (player nickname : String)
  | switchFailed (player : String)
  | usedPotion (player nickname : String)
  | potionRestored (nickname : String)
  | potionFailed (player : String)
  | hurtByBurn (nickname : String) (amount : Int)
  | hurtByPoison (nickname : String) (amount : Int)
deriving DecidableEq

/-- Randomness drawn while one move executes, made explicit.  Each roll
field stands for one call into the random source, in source order. -/
structure RandOracle where
  paralysis_roll : ℚ := 1
  frozen_roll : ℚ := 1
  accuracy_roll : Int := 100
  damage_factor : ℚ := 1
  crit_roll : ℚ := 1
  status_roll : ℚ := 1
  boost_roll : ℚ := 1
  drop_roll : ℚ := 1

/-- battle.py lines 271-274: the product, across the defender's types, of
the type-chart entries for the move's type.  `chart` already carries the
dictionary defaults (a missing entry reads as 1.0). -/
def composedEffectiveness (chart : String → String → ℚ) (move_type : String)
    (defender_types : List String) : ℚ :=
  defender_types.foldl (fun acc t => acc * chart move_type t) 1

/-- battle.py lines 235-293, Battle._calculate_damage.  Returns the damage
together with the log lines the calculation appends. -/
def calculate_damage (chart : String → String → ℚ) (attacker defender : Pokemon)
    (move : Move) (damage_factor crit_roll : ℚ) : Int × List LogEvent :=
  let power := move.power
  let category := move.category
  let move_type := move.move_type
  if power = 0 then (0, [])
  else
    let attack_stat : ℚ :=
      if category = "Physical" then attacker.get_modified_stat "attack"
      else attacker.get_modified_stat "sp_attack"
    let defense_stat : ℚ :=
      if category = "Physical" then defender.get_modified_stat "defense"
      else defender.get_modified_stat "sp_defense"
    let damage : ℚ :=
      ((2 * (attacker.level : ℚ) / 5 + 2) * (power : ℚ) * attack_stat /
        defense_stat) / 50 + 2
    let damage := if move_type ∈ attacker.types then damage * (3 / 2) else damage
    let effectiveness := composedEffectiveness chart move_type defender.types
    let damage := damage * effectiveness
    let elog : List LogEvent :=
      if effectiveness > 1 then [LogEvent.superEffective]
      else if effectiveness < 1 ∧ effectiveness > 0 then [LogEvent.notVeryEffective]
      else if effectiveness = 0 then [LogEvent.noEffect defender.nickname]
      else []
    let damage := damage * damage_factor
    let is_crit := crit_roll < 1 / 16
    let damage := if is_crit then damage * (3 / 2) else damage
    let clog : List LogEvent := if is_crit then [LogEvent.criticalHit] else []
    (max 1 (pyInt damage), elog ++ clog)

/-- battle.py lines 309-315: status infliction block of _apply_move_effects. -/
def statusBlock (roll : ℚ) (effect : Effect) (defender : Pokemon) :
    Pokemon × List LogEvent :=
  match effect.status with
  | none => (defender, [])
  | some st =>
    let chance := effect.chance.getD 1
    if roll < chance then
      let r := defender.apply_status st
      if r.2 then (r.1, [LogEvent.statusInflicted r.1.nickname st]) else (r.1, [])
    else (defender, [])

/-- One pass of a stat-change loop: apply `modify_stat_stage` for each listed
stat and log a change line when the actual delta is nonzero. -/
def statChangeFold (negate : Bool) (rose : Int → Bool) (changes : List (String × Int))
    (target : Pokemon) : Pokemon × List LogEvent :=
  changes.foldl
    (fun acc sv =>
      let delta := if negate then -sv.2 else sv.2
      let r := acc.1.modify_stat_stage sv.1 delta
      (r.1, acc.2 ++
        (if r.2 ≠ 0 then [LogEvent.statChanged r.1.nickname sv.1 (rose sv.2)] else [])))
    (target, [])

/-- battle.py lines 318-321: guaranteed stat boosts on the attacker. -/
def statBoostBlock (effect : Effect) (attacker : Pokemon) : Pokemon × List LogEvent :=
  statChangeFold false (fun st => st > 0) effect.stat_boost attacker

/-- battle.py lines 323-326: guaranteed stat drops on the defender. -/
def statDropBlock (effect : Effect) (defender : Pokemon) : Pokemon × List LogEvent :=
  statChangeFold true (fun _ => false) effect.stat_drop defender

/-- battle.py lines 329-334: probabilistic stat boosts on the attacker. -/
def statBoostChanceBlock (roll : ℚ) (effect : Effect) (attacker : Pokemon) :
    Pokemon × List LogEvent :=
  if effect.stat_boost_chance = [] then (attacker, [])
  else
    let chance := effect.chance.getD (1 / 10)
    if roll < chance then
      statChangeFold false (fun _ => true) effect.stat_boost_chance attacker
    else (attacker, [])

/-- battle.py lines 336-341: probabilistic stat drops on the defender. -/
def statDropChanceBlock (roll : ℚ) (effect : Effect) (defender : Pokemon) :
    Pokemon × List LogEvent :=
  if effect.stat_drop_chance = [] then (defender, [])
  else
    let chance := effect.chance.getD (1 / 10)
    if roll < chance then
      statChangeFold true (fun _ => false) effect.stat_drop_chance defender
    else (defender, [])

/-- battle.py lines 344-350: self-heal block. -/
def healBlock (effect : Effect) (attacker : Pokemon) : Pokemon × List LogEvent :=
  match effect.heal with
  | none => (attacker, [])
  | some heal_percent =>
    let heal_amount := pyInt ((attacker.max_hp : ℚ) * heal_percent)
    let r := attacker.heal heal_amount
    (r.1, if r.2 > 0 then [LogEvent.restoredHP r.1.nickname r.2] else [])

/-- battle.py lines 353-360: drain block.  `damage_dealt` is the source's
name for `min(defender's missing HP, move power)`; it is not the damage
actually dealt this turn. -/
def drainBlock (effect : Effect) (power : Int) (attacker defender : Pokemon) :
    Pokemon × List LogEvent :=
  match effect.drain with
  | none => (attacker, [])
  | some drain_percent =>
    if ¬ defender.is_fainted then
      let damage_dealt := min (defender.max_hp - defender.current_hp) power
      let heal_amount := pyInt ((damage_dealt : ℚ) * drain_percent)
      let r := attacker.heal heal_amount
      (r.1, if r.2 > 0 then [LogEvent.restoredHP r.1.nickname r.2] else [])
    else (attacker, [])

/-- battle.py lines 363-373: recoil block, computed from the same
`min(defender's missing HP, move power)` quantity as drain. -/
def recoilBlock (effect : Effect) (power : Int) (attacker defender : Pokemon)
    (attacker_player : String) : Pokemon × List LogEvent :=
  match effect.recoil with
  | none => (attacker, [])
  | some recoil_percent =>
    let damage_dealt := min (defender.max_hp - defender.current_hp) power
    let recoil_damage := pyInt ((damage_dealt : ℚ) * recoil_percent)
    if recoil_damage > 0 then
      let r := attacker.take_damage recoil_damage
      (r.1, [LogEvent.hurtByRecoil r.1.nickname r.2] ++
        (if r.1.is_fainted then
          [LogEvent.faintedFromRecoil attacker_player r.1.nickname] else []))
    else (attacker, [])

/-- battle.py lines 295-373, Battle._apply_move_effects: the effect blocks
in source order.  Returns the updated attacker, the updated defender and
the log lines appended. -/
def apply_move_effects (r : RandOracle) (move : Move) (attacker defender : Pokemon)
    (attacker_player : String) : Pokemon × Pokemon × List LogEvent :=
  let effect := move.effect
  let s1 := statusBlock r.status_roll effect defender
  let s2 := statBoostBlock effect attacker
  let s3 := statDropBlock effect s1.1
  let s4 := statBoostChanceBlock r.boost_roll effect s2.1
  let s5 := statDropChanceBlock r.drop_roll effect s3.1
  let s6 := healBlock effect s4.1
  let s7 := drainBlock effect move.power s6.1 s5.1
  let s8 := recoilBlock effect move.power s7.1 s5.1 attacker_player
  (s8.1, s5.1,
   s1.2 ++ s2.2 ++ s3.2 ++ s4.2 ++ s5.2 ++ s6.2 ++ s7.2 ++ s8.2)

/-- battle.py lines 165-233, Battle._execute_move for one attacker/defender
pair.  `moveData` is the external move catalog.  Returns the updated
attacker, the updated defender and the log lines of the move. -/
def execute_move (moveData : String → Option Move) (chart : String → String → ℚ)
    (r : RandOracle) (attacker_player defender_player : String)
    (attacker defender : Pokemon) (move_name : String) :
    Pokemon × Pokemon × List LogEvent :=
  if attacker.is_fainted then (attacker, defender, [])
  else if defender.is_fainted then (attacker, defender, [])
  else
    match moveData move_name with
    | none => (attacker, defender, [LogEvent.unknownMove attacker.nickname move_name])
    | some move =>
      if move_name ∉ attacker.moves then
        (attacker, defender, [LogEvent.unknownMove attacker.nickname move_name])
      else
        let log0 := [LogEvent.usedMove attacker_player attacker.nickname move_name]
        if attacker.status = some StatusCond.paralyzed ∧ r.paralysis_roll < 1 / 4 then
          (attacker, defender, log0 ++ [LogEvent.paralyzedImmobile attacker.nickname])
        else if attacker.status = some StatusCond.frozen ∧ r.frozen_roll < 4 / 5 then
          (attacker, defender, log0 ++ [LogEvent.frozenSolid attacker.nickname])
        else if attacker.status = some StatusCond.asleep then
          (attacker, defender, log0 ++ [LogEvent.fastAsleep attacker.nickname])
        else if move.accuracy < 100 ∧ r.accuracy_roll > move.accuracy then
          (attacker, defender, log0 ++ [LogEvent.missed attacker.nickname])
        else if move.category = "Physical" ∨ move.category = "Special" then
          let dc := calculate_damage chart attacker defender move r.damage_factor r.crit_roll
          let td := defender.take_damage dc.1
          let defender := td.1
          let dlog := log0 ++ dc.2 ++ [LogEvent.tookDamage defender.nickname td.2] ++
            (if defender.is_fainted then
              [LogEvent.fainted defender_player defender.nickname] else [])
          let fx := apply_move_effects r move attacker defender attacker_player
          (fx.1, fx.2.1, dlog ++ fx.2.2)
        else if move.category = "Status" then
          let fx := apply_move_effects r move attacker defender attacker_player
          (fx.1, fx.2.1, log0 ++ fx.2.2)
        else (attacker, defender, log0)

/-- battle.py lines 418-440, Battle._apply_status_damage (end-of-turn chip
damage for burn and poison).  Python `//` is floor division, Int.fdiv. -/
def apply_status_damage (player_name : String) (p : Pokemon) :
    Pokemon × List LogEvent :=
  if p.status = some StatusCond.burned then
    let damage := max 1 (Int.fdiv p.max_hp 16)
    let r := p.take_damage damage
    (r.1, [LogEvent.hurtByBurn r.1.nickname r.2] ++
      (if r.1.is_fainted then [LogEvent.fainted player_name r.1.nickname] else []))
  else if p.status = some StatusCond.poisoned then
    let damage := max 1 (Int.fdiv p.max_hp 8)
    let r := p.take_damage damage
    (r.1, [LogEvent.hurtByPoison r.1.nickname r.2] ++
      (if r.1.is_fainted then [LogEvent.fainted player_name r.1.nickname] else []))
  else (p, [])

/-- One side of the battle (player.py, class Player). -/
structure Player where
  name : String
  team : List Pokemon
  active_pokemon_index : Nat
  potions : Int
deriving DecidableEq

/-- player.py lines 33-38: the active Pokémon, none when the team is empty
or the active index is out of range. -/
def Player.active_pokemon (pl : Player) : Option Pokemon :=
  if pl.team = [] ∨ pl.team.length ≤ pl.active_pokemon_index then none
  else pl.team[pl.active_pokemon_index]?

/-- player.py lines 52-65: switch to the given index when it is in range and
the Pokémon there has not fainted. -/
def Player.switch_pokemon (pl : Player) (index : Int) : Player × Bool :=
  match (if 0 ≤ index ∧ index < (pl.team.length : Int)
         then pl.team[index.toNat]? else none) with
  | some pk =>
    if ¬ pk.is_fainted then ({ pl with active_pokemon_index := index.toNat }, true)
    else (pl, false)
  | none => (pl, false)

/-- player.py lines 67-87: use a potion on the team member at the given
index.  Succeeds only with a potion in stock, a valid index, a non-fainted
target below full HP; heals by min(20, missing HP) and spends one potion. -/
def Player.use_potion (pl : Player) (pokemon_index : Int) : Player × Bool :=
  if pl.potions ≤ 0 then (pl, false)
  else
    match (if 0 ≤ pokemon_index ∧ pokemon_index < (pl.team.length : Int)
           then pl.team[pokemon_index.toNat]? else none) with
    | some pk =>
      if ¬ pk.is_fainted then
        if pk.current_hp < pk.max_hp then
          let heal_amount := min 20 (pk.max_hp - pk.current_hp)
          let r := pk.heal heal_amount
          ({ pl with team := pl.team.set pokemon_index.toNat r.1,
                     potions := pl.potions - 1 }, true)
        else (pl, false)
      else (pl, false)
    | none => (pl, false)

/-- player.py lines 89-96. -/
def Player.has_usable_pokemon (pl : Player) : Bool :=
  pl.team.any (fun pk => ¬ pk.is_fainted)

/-- battle.py lines 375-387, Battle._execute_switch. -/
def execute_switch (pl : Player) (pokemon_index : Int) : Player × List LogEvent :=
  let r := pl.switch_pokemon pokemon_index
  if r.2 then
    (r.1, [LogEvent.withdrew r.1.name,
           LogEvent.sentOut r.1.name
             ((r.1.active_pokemon.map Pokemon.nickname).getD "")])
  else (r.1, [LogEvent.switchFailed r.1.name])

/-- battle.py lines 389-404, Battle._execute_item: only "potion" is handled;
any other item name does nothing and logs nothing. -/
def execute_item (pl : Player) (item : String) (target_index : Int) :
    Player × List LogEvent :=
  if item = "potion" then
    let r := pl.use_potion target_index
    if r.2 then
      (r.1, [LogEvent.usedPotion r.1.name
               (((r.1.team[target_index.toNat]?).map Pokemon.nickname).getD ""),
             LogEvent.potionRestored
               (((r.1.team[target_index.toNat]?).map Pokemon.nickname).getD "")])
    else (r.1, [LogEvent.potionFailed r.1.name])
  else (pl, [])

/-- A submitted action (the dict-shaped action values of the source). -/
inductive BAction where
  | move (mv : String)
  | switch (pokemon_index : Int)
  | item (item : String) (target_index : Int)
  | pass
deriving DecidableEq

/-- The `action.get("type")` string of an action value. -/
def BAction.actionType : BAction → String
  | BAction.move _ => "move"
  | BAction.switch _ => "switch"
  | BAction.item _ _ => "item"
  | BAction.pass => "pass"

/-- battle.py lines 110-111: `MOVE_DATA.get(action.get("move", ""), {})
.get("effect", {}).get("priority", 0)`. -/
def actionPriority (moveData : String → Option Move) : BAction → Int
  | BAction.move mv => ((moveData mv).map (fun m => m.effect.priority)).getD 0
  | _ => 0

/-- Which side an ordered action belongs to. -/
inductive Side where
  | one
  | two
deriving DecidableEq

/-- battle.py lines 73-145, Battle._determine_action_order.  `coin` stands
for the `random.random() < 0.5` speed-tie coin flip. -/
def determine_action_order (moveData : String → Option Move) (p1 p2 : Player)
    (coin : Bool) (a1 a2 : BAction) : List (Side × BAction) :=
  if a1.actionType = "pass" then [(Side.two, a2)]
  else if a2.actionType = "pass" then [(Side.one, a1)]
  else if (a1.actionType = "switch" ∨ a1.actionType = "item") ∧
          a2.actionType = "move" then
    [(Side.one, a1), (Side.two, a2)]
  else if (a2.actionType = "switch" ∨ a2.actionType = "item") ∧
          a1.actionType = "move" then
    [(Side.two, a2), (Side.one, a1)]
  else if a1.actionType = a2.actionType then
    let priority_order : Option (List (Side × BAction)) :=
      if a1.actionType = "move" then
        let p1_priority := actionPriority moveData a1
        let p2_priority := actionPriority moveData a2
        if p1_priority ≠ p2_priority then
          if p1_priority > p2_priority then
            some [(Side.one, a1), (Side.two, a2)]
          else some [(Side.two, a2), (Side.one, a1)]
        else none
      else none
    match priority_order with
    | some l => l
    | none =>
      let p1_speed : ℚ := ((p1.active_pokemon.map
        (fun pk => pk.get_modified_stat "speed")).getD 0)
      let p2_speed : ℚ := ((p2.active_pokemon.map
        (fun pk => pk.get_modified_stat "speed")).getD 0)
      if p1_speed > p2_speed then [(Side.one, a1), (Side.two, a2)]
      else if p2_speed > p1_speed then [(Side.two, a2), (Side.one, a1)]
      else if coin then [(Side.one, a1), (Side.two, a2)]
      else [(Side.two, a2), (Side.one, a1)]
  else [(Side.one, a1), (Side.two, a2)]

/-- The HP invariant of the spec: current HP within [0, max HP]. -/
abbrev HPInv (p : Pokemon) : Prop := 0 ≤ p.current_hp ∧ p.current_hp ≤ p.max_hp

/-- All stored stat stages within [-6, 6]. -/
abbrev StagesInRange (s : StatStages) : Prop :=
  (-6 ≤ s.attack ∧ s.attack ≤ 6) ∧ (-6 ≤ s.defense ∧ s.defense ≤ 6) ∧
  (-6 ≤ s.sp_attack ∧ s.sp_attack ≤ 6) ∧ (-6 ≤ s.sp_defense ∧ s.sp_defense ≤ 6) ∧
  (-6 ≤ s.speed ∧ s.speed ≤ 6) ∧ (-6 ≤ s.accuracy ∧ s.accuracy ≤ 6) ∧
  (-6 ≤ s.evasion ∧ s.evasion ≤ 6)

/-- Nonnegativity of the fractional effect magnitudes of a move, as holds
for every entry of the static move catalog. -/
abbrev NonnegEffect (e : Effect) : Prop :=
  0 ≤ e.heal.getD 0 ∧ 0 ≤ e.drain.getD 0 ∧ 0 ≤ e.recoil.getD 0

/-- All-zero stat stages, the state at creation. -/
def zeroStages : StatStages := ⟨0, 0, 0, 0, 0, 0, 0⟩

/-- A type chart in which every matchup is neutral. -/
def chartOnes : String → String → ℚ := fun _ _ => 1

/-- A type chart with a single immunity: Normal attacks into Ghost. -/
def chartGhost : String → String → ℚ :=
  fun mt dt => if mt = "Normal" ∧ dt = "Ghost" then 0 else 1

/-- Concrete level-50 attacker whose stage-and-status-adjusted attack is 100. -/
def c1Attacker : Pokemon :=
  { nickname := "Squirtle", types := ["Water"], level := 50, moves := ["Strike"],
    max_hp := 120, current_hp := 120, attack := 100, defense := 100,
    sp_attack := 100, sp_defense := 100, speed := 100,
    stat_stages := zeroStages, status := none }

/-- Concrete defender whose stage-and-status-adjusted defense is 100. -/
def c1Defender : Pokemon :=
  { nickname := "Eevee", types := ["Normal"], level := 50, moves := ["Tackle"],
    max_hp := 120, current_hp := 120, attack := 100, defense := 100,
    sp_attack := 100, sp_defense := 100, speed := 100,
    stat_stages := zeroStages, status := none }

/-- A power-80 physical move whose type matches neither attacker type. -/
def c1Move : Move :=
  { move_type := "Fire", category := "Physical", power := 80, accuracy := 100 }

/-- A power-80 physical move of the attacker's own type (STAB applies). -/
def c1MoveStab : Move :=
  { move_type := "Water", category := "Physical", power := 80, accuracy := 100 }

/-- A plain power-40 physical Normal-type move. -/
def tackleMove : Move :=
  { move_type := "Normal", category := "Physical", power := 40, accuracy := 100 }

/-- A one-entry move catalog holding tackleMove under "Tackle". -/
def tackleData : String → Option Move :=
  fun n => if n = "Tackle" then some tackleMove else none

/-- A Normal-type attacker knowing "Tackle". -/
def c2Attacker : Pokemon :=
  { nickname := "Rattata", types := ["Normal"], level := 50, moves := ["Tackle"],
    max_hp := 100, current_hp := 100, attack := 100, defense := 100,
    sp_attack := 100, sp_defense := 100, speed := 100,
    stat_stages := zeroStages, status := none }

/-- A Ghost-type defender at 80/100 HP, immune to Normal under chartGhost. -/
def c2Defender : Pokemon :=
  { nickname := "Gastly", types := ["Ghost"], level := 50, moves := ["Lick"],
    max_hp := 100, current_hp := 80, attack := 100, defense := 100,
    sp_attack := 100, sp_defense := 100, speed := 100,
    stat_stages := zeroStages, status := none }

/-- A target at 5/30 HP, for overkill damage. -/
def c3Target : Pokemon :=
  { nickname := "Pidgey", types := ["Normal"], level := 50, moves := ["Tackle"],
    max_hp := 30, current_hp := 5, attack := 50, defense := 50,
    sp_attack := 50, sp_defense := 50, speed := 50,
    stat_stages := zeroStages, status := none }

/-- A damaged, non-fainted team member at 10/35 HP. -/
def wAlly : Pokemon :=
  { nickname := "Pikachu", types := ["Electric"], level := 50, moves := ["Tackle"],
    max_hp := 35, current_hp := 10, attack := 60, defense := 60,
    sp_attack := 60, sp_defense := 60, speed := 90,
    stat_stages := zeroStages, status := none }

/-- A one-member side holding three potions, ally damaged. -/
def wPlayer : Player :=
  { name := "Ash", team := [wAlly], active_pokemon_index := 0, potions := 3 }

/-- A burned Pokémon with max HP 160, for end-of-turn chip damage. -/
def wBurned : Pokemon :=
  { nickname := "Charmander", types := ["Fire"], level := 50, moves := ["Ember"],
    max_hp := 160, current_hp := 100, attack := 60, defense := 60,
    sp_attack := 60, sp_defense := 60, speed := 60,
    stat_stages := zeroStages, status := some StatusCond.burned }

/-- A power-40 physical move carrying both a 50% drain and a 25% recoil
fraction. -/
def drainRecoilMove : Move :=
  { move_type := "Grass", category := "Physical", power := 40, accuracy := 100,
    effect := { drain := some (1 / 2), recoil := some (1 / 4) } }

/-- A one-entry move catalog holding drainRecoilMove under "Leech Slam". -/
def drainRecoilData : String → Option Move :=
  fun n => if n = "Leech Slam" then some drainRecoilMove else none

/-- A Grass-type attacker at 50/100 HP knowing "Leech Slam". -/
def c8Attacker : Pokemon :=
  { nickname := "Oddish", types := ["Grass"], level := 50,
    moves := ["Leech Slam"],
    max_hp := 100, current_hp := 50, attack := 100, defense := 100,
    sp_attack := 100, sp_defense := 100, speed := 100,
    stat_stages := zeroStages, status := none }

/-- A Normal-type defender at 60/100 HP. -/
def c8Defender : Pokemon :=
  { nickname := "Meowth", types := ["Normal"], level := 50, moves := ["Scratch"],
    max_hp := 100, current_hp := 60, attack := 100, defense := 100,
    sp_attack := 100, sp_defense := 100, speed := 100,
    stat_stages := zeroStages, status := none }

/-- The drain/recoil rule in the spec's words (section 4.2 step 6): both
amounts are the stated fraction of min(defender's missing HP, move power),
the missing HP being measured after the move's damage was applied; the
defender must not have fainted for drain, and recoil applies only when the
computed recoil damage is positive. -/
def specDrainRecoilAttacker (power : Int) (dp rp : ℚ) (attacker d1 : Pokemon) :
    Pokemon :=
  let dd : Int := min (d1.max_hp - d1.current_hp) power
  let a1 := if ¬ d1.is_fainted then (attacker.heal (pyInt ((dd : ℚ) * dp))).1
            else attacker
  let rdmg := pyInt ((dd : ℚ) * rp)
  if rdmg > 0 then (a1.take_damage rdmg).1 else a1

/-- A side with a damaged team member but zero potions left. -/
def wPoorPlayer : Player :=
  { name := "Misty", team := [wAlly], active_pokemon_index := 0, potions := 0 }

theorem StatStages.get_set_self (s : StatStages) (k : String) (v : Int) :
    (s.set k v).get k = if (s.get k).isSome then some v else none := by
  unfold StatStages.get StatStages.set
  split_ifs <;> simp_all

theorem stagesInRange_set (s : StatStages) (k : String) (v : Int)
    (h : StagesInRange s) (hv : -6 ≤ v ∧ v ≤ 6) : StagesInRange (s.set k v) := by
  unfold StatStages.set
  split_ifs <;> try exact h
  all_goals (simp only [StagesInRange] at h ⊢; omega)

/-- C6: modify_stat_stage keeps every stored stage within [-6, 6] and
returns the actual delta applied (clamped new stage minus old stage, which
may be smaller in magnitude than requested or zero at the boundary); an
unknown stat name changes nothing and returns 0. -/
theorem c6_stat_stage_clamped (p : Pokemon) (stat : String) (stages : Int) :
    (StagesInRange p.stat_stages →
      StagesInRange (p.modify_stat_stage stat stages).1.stat_stages) ∧
    (∀ old, p.stat_stages.get stat = some old →
      (p.modify_stat_stage stat stages).1.stat_stages.get stat =
        some (max (-6) (min 6 (old + stages))) ∧
      (p.modify_stat_stage stat stages).2 = max (-6) (min 6 (old + stages)) - old) ∧
    (p.stat_stages.get stat = none → p.modify_stat_stage stat stages = (p, 0)) := by
  rcases hg : p.stat_stages.get stat with _ | old
  · refine ⟨fun hin => ?_, fun old hold => absurd hold (by simp), fun _ => ?_⟩
    · simpa [Pokemon.modify_stat_stage, hg] using hin
    · simp [Pokemon.modify_stat_stage, hg]
  · refine ⟨fun hin => ?_, fun old2 hold => ?_,
      fun hnone => absurd hnone (by simp)⟩
    · simp only [Pokemon.modify_stat_stage, hg]
      exact stagesInRange_set _ _ _ hin (by omega)
    · obtain rfl : old = old2 := by injection hold
      simp [Pokemon.modify_stat_stage, hg, StatStages.get_set_self]

theorem pyInt_nonneg (q : ℚ) (hq : 0 ≤ q) : 0 ≤ pyInt q := by
  unfold pyInt ratFloor
  rw [if_neg (not_lt.mpr hq)]
  exact Int.fdiv_nonneg (Rat.num_nonneg.mpr hq) (Int.ofNat_nonneg _)

theorem hpInv_take_damage (p : Pokemon) (d : Int) (h : HPInv p) :
    HPInv (p.take_damage d).1 := by
  obtain ⟨h1, h2⟩ := h
  unfold Pokemon.take_damage
  refine ⟨?_, ?_⟩ <;> (simp; try omega)

theorem hpInv_heal (p : Pokemon) (a : Int) (h : HPInv p) (ha : 0 ≤ a) :
    HPInv (p.heal a).1 := by
  obtain ⟨h1, h2⟩ := h
  unfold Pokemon.heal
  split
  · exact ⟨h1, h2⟩
  · refine ⟨?_, ?_⟩ <;> (simp; try omega)

theorem take_damage_fields (p : Pokemon) (d : Int) :
    (p.take_damage d).1.max_hp = p.max_hp ∧
    (p.take_damage d).1.nickname = p.nickname := ⟨rfl, rfl⟩

theorem heal_fields (p : Pokemon) (a : Int) :
    (p.heal a).1.max_hp = p.max_hp ∧ (p.heal a).1.nickname = p.nickname := by
  unfold Pokemon.heal
  split <;> exact ⟨rfl, rfl⟩

theorem apply_status_hp (p : Pokemon) (st : StatusCond) :
    (p.apply_status st).1.current_hp = p.current_hp ∧
    (p.apply_status st).1.max_hp = p.max_hp := by
  unfold Pokemon.apply_status
  split_ifs <;> exact ⟨rfl, rfl⟩

theorem modify_stat_stage_hp (p : Pokemon) (k : String) (n : Int) :
    (p.modify_stat_stage k n).1.current_hp = p.current_hp ∧
    (p.modify_stat_stage k n).1.max_hp = p.max_hp := by
  unfold Pokemon.modify_stat_stage
  rcases p.stat_stages.get k <;> simp

theorem foldl_fst_pred {β : Type} (P : Pokemon → Prop)
    (f : Pokemon × List LogEvent → β → Pokemon × List LogEvent)
    (hf : ∀ s b, P s.1 → P (f s b).1) :
    ∀ (l : List β) (s : Pokemon × List LogEvent), P s.1 → P (l.foldl f s).1 := by
  intro l
  induction l with
  | nil => intro s hs; simpa using hs
  | cons b t ih => intro s hs; exact ih (f s b) (hf s b hs)

theorem statChangeFold_hp (negate : Bool) (rose : Int → Bool)
    (changes : List (String × Int)) (p : Pokemon) :
    (statChangeFold negate rose changes p).1.current_hp = p.current_hp ∧
    (statChangeFold negate rose changes p).1.max_hp = p.max_hp := by
  unfold statChangeFold
  exact foldl_fst_pred
    (fun q => q.current_hp = p.current_hp ∧ q.max_hp = p.max_hp) _
    (fun s b hp => by
      refine ⟨?_, ?_⟩
      · show (s.1.modify_stat_stage b.1 _).1.current_hp = p.current_hp
        rw [(modify_stat_stage_hp s.1 b.1 _).1]; exact hp.1
      · show (s.1.modify_stat_stage b.1 _).1.max_hp = p.max_hp
        rw [(modify_stat_stage_hp s.1 b.1 _).2]; exact hp.2)
    changes (p, []) ⟨rfl, rfl⟩


theorem hpInv_of_fields {p q : Pokemon} (h : HPInv p)
    (h1 : q.current_hp = p.current_hp) (h2 : q.max_hp = p.max_hp) : HPInv q := by
  rw [HPInv, h1, h2]; exact h

theorem statusBlock_hp (roll : ℚ) (eff : Effect) (d : Pokemon) :
    (statusBlock roll eff d).1.current_hp = d.current_hp ∧
    (statusBlock roll eff d).1.max_hp = d.max_hp := by
  unfold statusBlock
  rcases eff.status with _ | st
  · exact ⟨rfl, rfl⟩
  · dsimp only
    split_ifs <;> first
      | exact ⟨rfl, rfl⟩
      | exact apply_status_hp d st

theorem statBoostBlock_hp (eff : Effect) (a : Pokemon) :
    (statBoostBlock eff a).1.current_hp = a.current_hp ∧
    (statBoostBlock eff a).1.max_hp = a.max_hp :=
  statChangeFold_hp _ _ _ _

theorem statDropBlock_hp (eff : Effect) (d : Pokemon) :
    (statDropBlock eff d).1.current_hp = d.current_hp ∧
    (statDropBlock eff d).1.max_hp = d.max_hp :=
  statChangeFold_hp _ _ _ _

theorem statBoostChanceBlock_hp (roll : ℚ) (eff : Effect) (a : Pokemon) :
    (statBoostChanceBlock roll eff a).1.current_hp = a.current_hp ∧
    (statBoostChanceBlock roll eff a).1.max_hp = a.max_hp := by
  unfold statBoostChanceBlock
  split_ifs
  · exact ⟨rfl, rfl⟩
  · dsimp only
    split_ifs <;> first
      | exact ⟨rfl, rfl⟩
      | exact statChangeFold_hp _ _ _ _

theorem statDropChanceBlock_hp (roll : ℚ) (eff : Effect) (d : Pokemon) :
    (statDropChanceBlock roll eff d).1.current_hp = d.current_hp ∧
    (statDropChanceBlock roll eff d).1.max_hp = d.max_hp := by
  unfold statDropChanceBlock
  split_ifs
  · exact ⟨rfl, rfl⟩
  · dsimp only
    split_ifs <;> first
      | exact ⟨rfl, rfl⟩
      | exact statChangeFold_hp _ _ _ _

theorem effects_defender_hp (r : RandOracle) (move : Move) (a d : Pokemon)
    (pn : String) :
    (apply_move_effects r move a d pn).2.1.current_hp = d.current_hp ∧
    (apply_move_effects r move a d pn).2.1.max_hp = d.max_hp := by
  unfold apply_move_effects
  dsimp only
  constructor
  · rw [(statDropChanceBlock_hp _ _ _).1, (statDropBlock_hp _ _).1,
      (statusBlock_hp _ _ _).1]
  · rw [(statDropChanceBlock_hp _ _ _).2, (statDropBlock_hp _ _).2,
      (statusBlock_hp _ _ _).2]

theorem hpInv_healBlock (eff : Effect) (a : Pokemon) (h : HPInv a)
    (hh : 0 ≤ eff.heal.getD 0) : HPInv (healBlock eff a).1 := by
  unfold healBlock
  rcases hs : eff.heal with _ | hq
  · exact h
  · have hq0 : 0 ≤ hq := by rw [hs] at hh; simpa using hh
    have hm : (0 : ℚ) ≤ (a.max_hp : ℚ) := by
      exact_mod_cast le_trans h.1 h.2
    exact hpInv_heal _ _ h (pyInt_nonneg _ (mul_nonneg hm hq0))

theorem hpInv_drainBlock (eff : Effect) (power : Int) (a d : Pokemon)
    (h : HPInv a) (hd : 0 ≤ d.max_hp - d.current_hp) (hpow : 0 ≤ power)
    (hdr : 0 ≤ eff.drain.getD 0) : HPInv (drainBlock eff power a d).1 := by
  unfold drainBlock
  rcases hs : eff.drain with _ | dq
  · exact h
  · have hq0 : 0 ≤ dq := by rw [hs] at hdr; simpa using hdr
    have hm : (0 : ℚ) ≤ ((min (d.max_hp - d.current_hp) power : Int) : ℚ) := by
      exact_mod_cast le_min hd hpow
    dsimp only
    split_ifs <;> first
      | exact h
      | exact hpInv_heal _ _ h (pyInt_nonneg _ (mul_nonneg hm hq0))

theorem hpInv_recoilBlock (eff : Effect) (power : Int) (a d : Pokemon)
    (pn : String) (h : HPInv a) : HPInv (recoilBlock eff power a d pn).1 := by
  unfold recoilBlock
  rcases eff.recoil with _ | rq
  · exact h
  · dsimp only
    split_ifs <;> first
      | exact h
      | exact hpInv_take_damage _ _ h

theorem hpInv_apply_move_effects (r : RandOracle) (move : Move) (a d : Pokemon)
    (pn : String) (ha : HPInv a) (hd : HPInv d) (hpow : 0 ≤ move.power)
    (he : NonnegEffect move.effect) :
    HPInv (apply_move_effects r move a d pn).1 ∧
    HPInv (apply_move_effects r move a d pn).2.1 := by
  constructor
  · unfold apply_move_effects
    dsimp only
    refine hpInv_recoilBlock _ _ _ _ _ ?_
    refine hpInv_drainBlock _ _ _ _ ?_ ?_ hpow he.2.1
    · refine hpInv_healBlock _ _ ?_ he.1
      refine hpInv_of_fields ha ?_ ?_
      · rw [(statBoostChanceBlock_hp _ _ _).1, (statBoostBlock_hp _ _).1]
      · rw [(statBoostChanceBlock_hp _ _ _).2, (statBoostBlock_hp _ _).2]
    · have e1 := statDropChanceBlock_hp r.drop_roll move.effect
        (statDropBlock move.effect (statusBlock r.status_roll move.effect d).1).1
      have e2 := statDropBlock_hp move.effect
        (statusBlock r.status_roll move.effect d).1
      have e3 := statusBlock_hp r.status_roll move.effect d
      rw [e1.1, e1.2, e2.1, e2.2, e3.1, e3.2]
      omega
  · exact hpInv_of_fields hd (effects_defender_hp r move a d pn).1
      (effects_defender_hp r move a d pn).2

set_option maxHeartbeats 1000000 in
theorem hpInv_execute_move (md : String → Option Move)
    (chart : String → String → ℚ) (r : RandOracle) (pn dn : String)
    (a d : Pokemon) (mn : String) (ha : HPInv a) (hd : HPInv d)
    (hmv : ∀ m, md mn = some m → 0 ≤ m.power ∧ NonnegEffect m.effect) :
    HPInv (execute_move md chart r pn dn a d mn).1 ∧
    HPInv (execute_move md chart r pn dn a d mn).2.1 := by
  unfold execute_move
  rcases hm : md mn with _ | move
  · split_ifs <;> exact ⟨ha, hd⟩
  · obtain ⟨hpow, he⟩ := hmv move hm
    dsimp only
    split_ifs <;> first
      | exact ⟨ha, hd⟩
      | exact hpInv_apply_move_effects r move a _ pn ha
          (hpInv_take_damage d _ hd) hpow he
      | exact hpInv_apply_move_effects r move a d pn ha hd hpow he

theorem hpInv_use_potion (pl : Player) (idx : Int)
    (h : ∀ q ∈ pl.team, HPInv q) :
    ∀ q ∈ (pl.use_potion idx).1.team, HPInv q := by
  unfold Player.use_potion
  split_ifs
  · exact h
  · rcases hg : pl.team[idx.toNat]? with _ | pk
    · exact h
    · have hmem : pk ∈ pl.team := List.getElem?_mem hg
      dsimp only
      split_ifs
      · exact h
      · intro q hq
        rcases List.mem_or_eq_of_mem_set hq with hq1 | hq2
        · exact h q hq1
        · subst hq2
          exact hpInv_heal pk _ (h pk hmem) (by omega)
      · exact h
  · exact h

theorem hpInv_apply_status_damage (pn : String) (p : Pokemon) (h : HPInv p) :
    HPInv (apply_status_damage pn p).1 := by
  unfold apply_status_damage
  split_ifs <;> first
    | exact h
    | exact hpInv_take_damage _ _ h

/-- C5: 0 ≤ current_hp ≤ max_hp is preserved by every state-mutating engine
operation: take_damage with any amount, heal with a nonnegative amount,
potion use (for every team member), end-of-turn status damage, and full move
execution for moves with nonnegative power and nonnegative effect
fractions (as every catalog move has). -/
theorem c5_hp_bounds_preserved (p p2 : Pokemon) (d amount : Int) (pl : Player)
    (idx : Int) (pn dn : String) (md : String → Option Move)
    (chart : String → String → ℚ) (r : RandOracle) (a b : Pokemon)
    (mn : String) :
    (HPInv p → HPInv (p.take_damage d).1) ∧
    (HPInv p → 0 ≤ amount → HPInv (p.heal amount).1) ∧
    ((∀ q ∈ pl.team, HPInv q) → ∀ q ∈ (pl.use_potion idx).1.team, HPInv q) ∧
    (HPInv p2 → HPInv (apply_status_damage pn p2).1) ∧
    (HPInv a → HPInv b →
      (∀ m, md mn = some m → 0 ≤ m.power ∧ NonnegEffect m.effect) →
      HPInv (execute_move md chart r pn dn a b mn).1 ∧
      HPInv (execute_move md chart r pn dn a b mn).2.1) :=
  ⟨fun h => hpInv_take_damage p d h,
   fun h ha => hpInv_heal p amount h ha,
   fun h => hpInv_use_potion pl idx h,
   fun h => hpInv_apply_status_damage pn p2 h,
   fun ha hb hmv => hpInv_execute_move md chart r pn dn a b mn ha hb hmv⟩

/-- C5: witness at concrete Pokémon, side and move-execution instances. -/
theorem c5_hp_bounds_preserved_witness :
    HPInv (wAlly.take_damage 999).1 ∧ HPInv (wAlly.heal 5).1 ∧
    HPInv (((wPlayer.use_potion 0).1.team).getD 0 wAlly) ∧
    HPInv (apply_status_damage "Ash" wBurned).1 ∧
    HPInv (execute_move tackleData chartOnes {} "P1" "P2" c2Attacker
      c1Defender "Tackle").2.1 := by
  have h := c5_hp_bounds_preserved wAlly wBurned 999 5 wPlayer 0 "Ash" "P2" tackleData
    chartOnes {} c2Attacker c1Defender "Tackle"
  have hmv : ∀ m, tackleData "Tackle" = some m →
      0 ≤ m.power ∧ NonnegEffect m.effect := by
    intro m hm
    have he : m = tackleMove := by
      have hs : tackleData "Tackle" = some tackleMove := rfl
      rw [hs] at hm
      exact (Option.some.inj hm).symm
    subst he
    exact ⟨by decide, by with_unfolding_all decide⟩
  refine ⟨h.1 (by decide), h.2.1 (by decide) (by decide), ?_,
    h.2.2.2.1 (by decide), ?_⟩
  · exact h.2.2.1 (by decide) _ (by decide)
  · exact (h.2.2.2.2 (by decide) (by decide) hmv).2

/-- C7: in _determine_action_order, when exactly one side passes only the
other side's action is executed, and when exactly one side's action is a
switch or item use while the other's is a move, the non-move action is
ordered first and the move second. -/
theorem c7_action_order_special_cases (md : String → Option Move) (p1 p2 : Player) (coin : Bool)
    (a1 a2 : BAction) :
    (a1.actionType = "pass" → a2.actionType ≠ "pass" →
      determine_action_order md p1 p2 coin a1 a2 = [(Side.two, a2)]) ∧
    (a2.actionType = "pass" → a1.actionType ≠ "pass" →
      determine_action_order md p1 p2 coin a1 a2 = [(Side.one, a1)]) ∧
    ((a1.actionType = "switch" ∨ a1.actionType = "item") →
      a2.actionType = "move" →
      determine_action_order md p1 p2 coin a1 a2 =
        [(Side.one, a1), (Side.two, a2)]) ∧
    ((a2.actionType = "switch" ∨ a2.actionType = "item") →
      a1.actionType = "move" →
      determine_action_order md p1 p2 coin a1 a2 =
        [(Side.two, a2), (Side.one, a1)]) := by
  refine ⟨fun h1 _ => ?_, fun h2 h1 => ?_, fun h1 h2 => ?_, fun h2 h1 => ?_⟩
  · simp [determine_action_order, h1]
  · simp [determine_action_order, h1, h2]
  · rcases h1 with h1 | h1 <;> simp [determine_action_order, h1, h2]
  · rcases h2 with h2 | h2 <;> simp [determine_action_order, h1, h2]

/-- C7: witness at concrete pass/switch/item-versus-move submissions. -/
theorem c7_action_order_special_cases_witness :
    determine_action_order tackleData wPlayer wPlayer true BAction.pass
        (BAction.move "Tackle") = [(Side.two, BAction.move "Tackle")] ∧
    determine_action_order tackleData wPlayer wPlayer true (BAction.switch 1)
        (BAction.move "Tackle") =
      [(Side.one, BAction.switch 1), (Side.two, BAction.move "Tackle")] ∧
    determine_action_order tackleData wPlayer wPlayer true
        (BAction.move "Tackle") (BAction.item "potion" 0) =
      [(Side.two, BAction.item "potion" 0), (Side.one, BAction.move "Tackle")] := by
  refine ⟨?_, ?_, ?_⟩
  · exact (c7_action_order_special_cases tackleData wPlayer wPlayer true BAction.pass
      (BAction.move "Tackle")).1 (by decide) (by decide)
  · exact (c7_action_order_special_cases tackleData wPlayer wPlayer true (BAction.switch 1)
      (BAction.move "Tackle")).2.2.1 (by decide) (by decide)
  · exact (c7_action_order_special_cases tackleData wPlayer wPlayer true (BAction.move "Tackle")
      (BAction.item "potion" 0)).2.2.2 (by decide) (by decide)

theorem use_potion_fail_state (pl : Player) (idx : Int)
    (hf : (pl.use_potion idx).2 = false) : (pl.use_potion idx).1 = pl := by
  unfold Player.use_potion at hf ⊢
  split_ifs at hf ⊢ with h1 h2
  · rfl
  · rcases hg : pl.team[idx.toNat]? with _ | pk
    · rfl
    · rw [hg] at hf
      dsimp only at hf ⊢
      split_ifs at hf ⊢ <;> rfl
  · rfl

/-- C9: a potion item action succeeds exactly when the side holds a potion,
the target index is a valid roster index and the target is neither fainted
nor at full HP; on success the target's HP rises by 20 capped at max HP and
the potion count drops by one; on failure the side is unchanged and the
item execution logs exactly the failure line. -/
theorem c9_potion_use_spec (pl : Player) (idx : Int) :
    ((pl.use_potion idx).2 = true ↔
      (0 < pl.potions ∧ 0 ≤ idx ∧ idx < (pl.team.length : Int) ∧
        ∃ pk, pl.team[idx.toNat]? = some pk ∧ pk.is_fainted = false ∧
          pk.current_hp < pk.max_hp)) ∧
    (∀ pk, pl.team[idx.toNat]? = some pk → (pl.use_potion idx).2 = true →
      (pl.use_potion idx).1.team =
        pl.team.set idx.toNat
          { pk with current_hp := min (pk.current_hp + 20) pk.max_hp } ∧
      (pl.use_potion idx).1.potions = pl.potions - 1) ∧
    ((pl.use_potion idx).2 = false →
      (pl.use_potion idx).1 = pl ∧
      execute_item pl "potion" idx = (pl, [LogEvent.potionFailed pl.name])) := by
  refine ⟨⟨?_, ?_⟩, ?_, ?_⟩
  · intro hs
    unfold Player.use_potion at hs
    split_ifs at hs with h1 h2
    rcases hg : pl.team[idx.toNat]? with _ | pk
    · rw [hg] at hs; simp at hs
    · rw [hg] at hs
      dsimp only at hs
      split_ifs at hs with h3 h4
      exact ⟨by omega, h2.1, h2.2, pk, rfl, by simpa using h3, h4⟩
  · rintro ⟨hpot, hle, hlt, pk, hg, hfaint, hhp⟩
    unfold Player.use_potion
    rw [if_neg (by omega)]
    rw [if_pos ⟨hle, hlt⟩, hg]
    dsimp only
    rw [if_pos (by simp [hfaint]), if_pos hhp]
  · intro pk hg hs
    unfold Player.use_potion at hs ⊢
    split_ifs at hs ⊢ with h1 h2
    rw [hg] at hs ⊢
    dsimp only at hs ⊢
    split_ifs at hs ⊢ with h3 h4
    constructor
    · have hmin : min pk.max_hp (pk.current_hp + min 20
          (pk.max_hp - pk.current_hp)) = min (pk.current_hp + 20) pk.max_hp := by
        omega
      simp [Pokemon.heal, h3, hmin]
    · rfl
  · intro hf
    have h1 := use_potion_fail_state pl idx hf
    refine ⟨h1, ?_⟩
    simp [execute_item, hf, h1]

/-- C10: a switch action naming the currently active roster index succeeds
whenever that Pokémon is not fainted: switch_pokemon returns true and leaves
the side unchanged, and the engine logs the withdraw/send-out pair rather
than a failure. -/
theorem c10_switch_to_active_succeeds (pl : Player) (pk : Pokemon)
    (hget : pl.team[pl.active_pokemon_index]? = some pk)
    (hnf : pk.is_fainted = false) :
    (pl.switch_pokemon (pl.active_pokemon_index : Int)).2 = true ∧
    (pl.switch_pokemon (pl.active_pokemon_index : Int)).1 = pl ∧
    execute_switch pl (pl.active_pokemon_index : Int) =
      (pl, [LogEvent.withdrew pl.name, LogEvent.sentOut pl.name pk.nickname]) := by
  have hlt : pl.active_pokemon_index < pl.team.length := by
    rcases List.getElem?_eq_some_iff.mp hget with ⟨h, _⟩
    exact h
  have hsw : pl.switch_pokemon (pl.active_pokemon_index : Int) = (pl, true) := by
    unfold Player.switch_pokemon
    rw [if_pos ⟨Int.ofNat_nonneg _, by exact_mod_cast hlt⟩]
    simp only [Int.toNat_natCast]
    rw [hget]
    dsimp only
    rw [if_pos (by simp [hnf])]
  have hap : pl.active_pokemon = some pk := by
    unfold Player.active_pokemon
    rw [if_neg ?_]
    · exact hget
    · rintro (hnil | hle)
      · rw [hnil] at hlt; simp at hlt
      · omega
  refine ⟨by rw [hsw], by rw [hsw], ?_⟩
  unfold execute_switch
  rw [hsw]
  simp [hap]

/-- C10: witness at a one-member side switching to its own active index. -/
theorem c10_switch_to_active_succeeds_witness :
    (wPlayer.switch_pokemon (wPlayer.active_pokemon_index : Int)).2 = true ∧
    execute_switch wPlayer (wPlayer.active_pokemon_index : Int) =
      (wPlayer, [LogEvent.withdrew wPlayer.name,
        LogEvent.sentOut wPlayer.name wAlly.nickname]) := by
  have h := c10_switch_to_active_succeeds wPlayer wAlly rfl rfl
  exact ⟨h.1, h.2.2⟩

/-- C1: counterexample.  In the exact scenario of the claim (level 50,
power-80 physical move, adjusted attack and defense both 100, neutral
matchup, no crit, variance pinned to 1.0) the damage is not 42 without STAB
and not 63 with STAB: the quoted expression evaluates to 37.2, not 42. -/
theorem c1_damage_counterexample :
    (calculate_damage chartOnes c1Attacker c1Defender c1Move 1 1).1 ≠ 42 ∧
    (calculate_damage chartOnes c1Attacker c1Defender c1MoveStab 1 1).1 ≠ 63 := by
  with_unfolding_all decide

/-- C1 (amended): for every attacker of level 50 using a physical move of
power 80, with adjusted attack and defense both 100, composed effectiveness
1, no critical hit and the damage variance pinned to 1.0, the damage equals
floor(((2*50/5+2)*80*100/100)/50+2) = floor(37.2) = 37 without STAB, and
floor(37.2 * 1.5) = 55 when the move's type is among the attacker's types. -/
theorem c1_damage_formula_amended (chart : String → String → ℚ) (attacker defender : Pokemon)
    (move : Move) (crit_roll : ℚ)
    (hlvl : attacker.level = 50) (hpow : move.power = 80)
    (hcat : move.category = "Physical")
    (hatk : attacker.get_modified_stat "attack" = 100)
    (hdef : defender.get_modified_stat "defense" = 100)
    (heff : composedEffectiveness chart move.move_type defender.types = 1)
    (hcrit : ¬ crit_roll < 1 / 16) :
    (move.move_type ∉ attacker.types →
      (calculate_damage chart attacker defender move 1 crit_roll).1 = 37) ∧
    (move.move_type ∈ attacker.types →
      (calculate_damage chart attacker defender move 1 crit_roll).1 = 55) := by
  constructor <;> intro hstab <;>
    · unfold calculate_damage
      rw [if_neg (by rw [hpow]; decide)]
      dsimp only
      rw [hpow, hcat, hlvl, hatk, hdef, heff]
      simp only [if_pos rfl, hstab, if_neg hcrit, if_pos, if_neg]
      norm_num [pyInt, ratFloor]
      decide

/-- C1: witness for the amended theorem at a concrete neutral scenario. -/
theorem c1_damage_formula_amended_witness :
    (calculate_damage chartOnes c1Attacker c1Defender c1Move 1 1).1 = 37 ∧
    (calculate_damage chartOnes c1Attacker c1Defender c1MoveStab 1 1).1 = 55 := by
  refine ⟨?_, ?_⟩
  · exact (c1_damage_formula_amended chartOnes c1Attacker c1Defender c1Move 1 rfl rfl rfl
      (by with_unfolding_all decide) (by with_unfolding_all decide)
      (by with_unfolding_all decide) (by with_unfolding_all decide)).1
      (by decide)
  · exact (c1_damage_formula_amended chartOnes c1Attacker c1Defender c1MoveStab 1 rfl rfl rfl
      (by with_unfolding_all decide) (by with_unfolding_all decide)
      (by with_unfolding_all decide) (by with_unfolding_all decide)).2
      (by decide)

/-- C2: the code at the failing input.  A Normal-type power-40 move against
a pure Ghost-type defender has composed effectiveness 0 and the immunity
line is logged, yet _calculate_damage returns max(1, int(0)) = 1 and the
move execution lowers the defender's HP from 80 to 79 — contradicting the
claim that a fully immune move leaves the defender's HP unchanged and that
the floor at 1 applies only to non-immune moves. -/
theorem c2_immunity_still_deals_one :
    composedEffectiveness chartGhost "Normal" c2Defender.types = 0 ∧
    (calculate_damage chartGhost c2Attacker c2Defender tackleMove 1 1).1 = 1 ∧
    LogEvent.noEffect "Gastly" ∈
      (calculate_damage chartGhost c2Attacker c2Defender tackleMove 1 1).2 ∧
    (execute_move tackleData chartGhost {} "P1" "P2" c2Attacker c2Defender
      "Tackle").2.1.current_hp = c2Defender.current_hp - 1 := by
  with_unfolding_all decide

theorem statusBlock_none (roll : ℚ) (eff : Effect) (d : Pokemon)
    (h : eff.status = none) : statusBlock roll eff d = (d, []) := by
  unfold statusBlock; rw [h]

theorem statBoostBlock_nil (eff : Effect) (a : Pokemon)
    (h : eff.stat_boost = []) : statBoostBlock eff a = (a, []) := by
  unfold statBoostBlock statChangeFold; rw [h]; rfl

theorem statDropBlock_nil (eff : Effect) (d : Pokemon)
    (h : eff.stat_drop = []) : statDropBlock eff d = (d, []) := by
  unfold statDropBlock statChangeFold; rw [h]; rfl

theorem statBoostChanceBlock_nil (roll : ℚ) (eff : Effect) (a : Pokemon)
    (h : eff.stat_boost_chance = []) :
    statBoostChanceBlock roll eff a = (a, []) := by
  unfold statBoostChanceBlock; rw [if_pos h]

theorem statDropChanceBlock_nil (roll : ℚ) (eff : Effect) (d : Pokemon)
    (h : eff.stat_drop_chance = []) :
    statDropChanceBlock roll eff d = (d, []) := by
  unfold statDropChanceBlock; rw [if_pos h]

theorem healBlock_none (eff : Effect) (a : Pokemon) (h : eff.heal = none) :
    healBlock eff a = (a, []) := by
  unfold healBlock; rw [h]

theorem effects_drain_recoil_only (r : RandOracle) (move : Move)
    (a d : Pokemon) (pn : String) (dp rp : ℚ)
    (heff : move.effect = { drain := some dp, recoil := some rp }) :
    apply_move_effects r move a d pn =
      ((recoilBlock move.effect move.power
          (drainBlock move.effect move.power a d).1 d pn).1, d,
        (drainBlock move.effect move.power a d).2 ++
        (recoilBlock move.effect move.power
          (drainBlock move.effect move.power a d).1 d pn).2) := by
  unfold apply_move_effects
  dsimp only
  rw [statusBlock_none _ _ _ (by rw [heff]),
    statBoostBlock_nil _ _ (by rw [heff]),
    statDropBlock_nil _ _ (by rw [heff]),
    statBoostChanceBlock_nil _ _ _ (by rw [heff]),
    statDropChanceBlock_nil _ _ _ (by rw [heff]),
    healBlock_none _ _ (by rw [heff])]
  simp

theorem drainRecoil_spec (eff : Effect) (power : Int) (a d1 : Pokemon)
    (pn : String) (dp rp : ℚ) (hd : eff.drain = some dp)
    (hr : eff.recoil = some rp) :
    (recoilBlock eff power (drainBlock eff power a d1).1 d1 pn).1 =
      specDrainRecoilAttacker power dp rp a d1 := by
  unfold recoilBlock drainBlock specDrainRecoilAttacker
  rw [hd, hr]
  dsimp only
  split_ifs <;> rfl

theorem execute_move_damaging (moveData : String → Option Move)
    (chart : String → String → ℚ) (r : RandOracle) (pn dn : String)
    (attacker defender : Pokemon) (mn : String) (move : Move)
    (hmd : moveData mn = some move) (hknown : mn ∈ attacker.moves)
    (haf : attacker.is_fainted = false) (hdf : defender.is_fainted = false)
    (hstatus : attacker.status = none) (hacc : move.accuracy = 100)
    (hcat : move.category = "Physical") :
    execute_move moveData chart r pn dn attacker defender mn =
      ((apply_move_effects r move attacker
          (defender.take_damage (calculate_damage chart attacker defender move
            r.damage_factor r.crit_roll).1).1 pn).1,
       (apply_move_effects r move attacker
          (defender.take_damage (calculate_damage chart attacker defender move
            r.damage_factor r.crit_roll).1).1 pn).2.1,
       ([LogEvent.usedMove pn attacker.nickname mn] ++
         (calculate_damage chart attacker defender move r.damage_factor
           r.crit_roll).2 ++
         [LogEvent.tookDamage (defender.take_damage (calculate_damage chart
             attacker defender move r.damage_factor r.crit_roll).1).1.nickname
           (defender.take_damage (calculate_damage chart attacker defender move
             r.damage_factor r.crit_roll).1).2] ++
         (if (defender.take_damage (calculate_damage chart attacker defender
               move r.damage_factor r.crit_roll).1).1.is_fainted then
            [LogEvent.fainted dn (defender.take_damage (calculate_damage chart
              attacker defender move r.damage_factor r.crit_roll).1).1.nickname]
          else []) ++
         (apply_move_effects r move attacker
           (defender.take_damage (calculate_damage chart attacker defender move
             r.damage_factor r.crit_roll).1).1 pn).2.2)) := by
  unfold execute_move
  simp only [haf, hdf, hmd, hstatus, hacc, hcat, Bool.false_eq_true, if_false,
    reduceCtorEq, false_and, lt_self_iff_false, hknown, not_true_eq_false,
    eq_self_iff_true, true_or, if_true, ite_false, ite_true]

/-- C8: for every physical, 100-accuracy move whose effect carries a drain
fraction dp and a recoil fraction rp, executing the move leaves the defender
exactly at its post-damage state, and transforms the attacker exactly by
specDrainRecoilAttacker: a drain heal of int(min(missing HP, power) * dp)
and a recoil hit of int(min(missing HP, power) * rp), with the missing HP
measured after the move's damage was applied — not the damage actually
dealt; when recoil knocks the attacker to 0 HP, a recoil-faint line is in
the move's log. -/
theorem c8_drain_recoil_min_missing_power (moveData : String → Option Move) (chart : String → String → ℚ)
    (r : RandOracle) (pn dn : String) (attacker defender : Pokemon)
    (mn : String) (move : Move) (dp rp : ℚ)
    (hmd : moveData mn = some move) (hknown : mn ∈ attacker.moves)
    (haf : attacker.is_fainted = false) (hdf : defender.is_fainted = false)
    (hstatus : attacker.status = none) (hacc : move.accuracy = 100)
    (hcat : move.category = "Physical")
    (heff : move.effect = { drain := some dp, recoil := some rp }) :
    (execute_move moveData chart r pn dn attacker defender mn).2.1 =
      (defender.take_damage (calculate_damage chart attacker defender move
        r.damage_factor r.crit_roll).1).1 ∧
    (execute_move moveData chart r pn dn attacker defender mn).1 =
      specDrainRecoilAttacker move.power dp rp attacker
        (defender.take_damage (calculate_damage chart attacker defender move
          r.damage_factor r.crit_roll).1).1 ∧
    (0 < pyInt (((min ((defender.take_damage (calculate_damage chart attacker
          defender move r.damage_factor r.crit_roll).1).1.max_hp -
        (defender.take_damage (calculate_damage chart attacker defender move
          r.damage_factor r.crit_roll).1).1.current_hp) move.power : Int) : ℚ)
        * rp) →
      (execute_move moveData chart r pn dn attacker defender mn).1.is_fainted =
        true →
      LogEvent.faintedFromRecoil pn
          (execute_move moveData chart r pn dn attacker defender mn).1.nickname
        ∈ (execute_move moveData chart r pn dn attacker defender mn).2.2) := by
  have hred := execute_move_damaging moveData chart r pn dn attacker defender
    mn move hmd hknown haf hdf hstatus hacc hcat
  have hfx := effects_drain_recoil_only r move attacker
    (defender.take_damage (calculate_damage chart attacker defender move
      r.damage_factor r.crit_roll).1).1 pn dp rp heff
  rw [hred, hfx]
  dsimp only
  refine ⟨rfl, drainRecoil_spec _ _ _ _ _ _ _ (by rw [heff]) (by rw [heff]), ?_⟩
  intro hr0 hfaint
  unfold recoilBlock at hfaint ⊢
  rw [show move.effect.recoil = some rp from by rw [heff]] at hfaint ⊢
  dsimp only at hfaint ⊢
  rw [if_pos hr0] at hfaint ⊢
  refine List.mem_append_right _ (List.mem_append_right _
    (List.mem_append_right _ ?_))
  rw [if_pos hfaint]
  exact List.mem_singleton.mpr rfl

/-- C8: witness.  A power-40 drain-1/2 recoil-1/4 move dealing 29 damage to
a defender at 60/100 HP heals the attacker by int(min(69, 40)/2) = 20 and
recoils int(min(69, 40)/4) = 10 — from min(missing HP, power), not from the
29 damage dealt. -/
theorem c8_drain_recoil_min_missing_power_witness :
    (execute_move drainRecoilData chartOnes {} "P1" "P2" c8Attacker c8Defender
      "Leech Slam").2.1.current_hp = 31 ∧
    (execute_move drainRecoilData chartOnes {} "P1" "P2" c8Attacker c8Defender
      "Leech Slam").1.current_hp = 60 := by
  have h := c8_drain_recoil_min_missing_power drainRecoilData chartOnes {} "P1" "P2" c8Attacker c8Defender
    "Leech Slam" drainRecoilMove (1 / 2) (1 / 4) rfl (by decide) rfl rfl rfl
    rfl rfl rfl
  refine ⟨?_, ?_⟩
  · rw [h.1]
    with_unfolding_all decide
  · rw [h.2.1]
    with_unfolding_all decide

/-- C6: witness.  Requesting +9 attack stages from 0 stores 6 and returns 6. -/
theorem c6_stat_stage_clamped_witness :
    StagesInRange (c1Attacker.modify_stat_stage "attack" 9).1.stat_stages ∧
    (c1Attacker.modify_stat_stage "attack" 9).1.stat_stages.get "attack" =
      some 6 ∧
    (c1Attacker.modify_stat_stage "attack" 9).2 = 6 := by
  have h := c6_stat_stage_clamped c1Attacker "attack" 9
  have h2 := h.2.1 0 rfl
  refine ⟨h.1 (by decide), ?_, ?_⟩
  · rw [h2.1]; decide
  · rw [h2.2]; decide

/-- C9: witness.  A side with a 10/35 HP member and three potions succeeds;
the same member with zero potions fails with only the failure log line. -/
theorem c9_potion_use_spec_witness :
    (wPlayer.use_potion 0).2 = true ∧
    (wPlayer.use_potion 0).1.team =
      wPlayer.team.set 0
        { wAlly with current_hp := min (wAlly.current_hp + 20) wAlly.max_hp } ∧
    (wPlayer.use_potion 0).1.potions = wPlayer.potions - 1 ∧
    execute_item wPoorPlayer "potion" 0 =
      (wPoorPlayer, [LogEvent.potionFailed wPoorPlayer.name]) := by
  have h := c9_potion_use_spec wPlayer 0
  have hp := c9_potion_use_spec wPoorPlayer 0
  have hs : (wPlayer.use_potion 0).2 = true :=
    h.1.mpr ⟨by decide, by decide, by decide, wAlly, rfl, rfl, by decide⟩
  exact ⟨hs, (h.2.1 wAlly rfl hs).1, (h.2.1 wAlly rfl hs).2,
    (hp.2.2 (by decide)).2⟩

/-- C3: counterexample.  take_damage 10 on a target with 5 current HP
returns 10, while the HP lost (before minus after) is 5 — so the returned
value is not the difference between the HP before and after the call. -/
theorem c3_take_damage_counterexample :
    (c3Target.take_damage 10).2 ≠
      c3Target.current_hp - (c3Target.take_damage 10).1.current_hp := by
  decide

/-- C3 (amended): take_damage clamps the requested amount to at least 1 and
subtracts it from current HP with a floor of 0, but returns the clamped
requested amount max(1, amount) — which exceeds the HP actually removed
whenever the clamped amount exceeds the current HP. -/
theorem c3_take_damage_amended (p : Pokemon) (d : Int) :
    (p.take_damage d).2 = max 1 d ∧
    (p.take_damage d).1.current_hp = max 0 (p.current_hp - max 1 d) :=
  ⟨rfl, rfl⟩

/-- C4: the code at the failing input.  get_modified_stat returns 1.0 for
accuracy and for evasion regardless of the stored stage, because the early
return for non-core stat names fires before the stage multiplier is
applied; the (3+s)/3 and 3/(3-s) branch in the source is unreachable. -/
theorem c4_accuracy_evasion_constant_one (p : Pokemon) :
    p.get_modified_stat "accuracy" = 1 ∧ p.get_modified_stat "evasion" = 1 :=
  ⟨rfl, rfl⟩
